import Mathlib

/-!
Verification of the pipeline execution core of the ion shell
(`src/shell/pipe.rs`), via a shallow embedding.

The embedding models the shell's world as an explicit state (`St`):
file-descriptor and PID allocators, per-pipe byte buffers, an append-only
stderr log, the foreground PID set, signals sent, plus failure-injection
oracles for the fallible syscalls (`pipe2`, `dup`/`try_clone`, `write`,
`open`).  Pure Rust functions become Lean functions threading this state.
Functions of the repository that live outside `src/` (`Shell::watch_foreground`,
`Shell::foreground_send`, `fork_pipe`, `Pipeline::to_string`, the status
constants) are modelled from the specification and marked as such.
-/

namespace Ion

/-- `parser::peg::RedirectFrom`: which output of the parent feeds the pipe. -/
inductive RedirectFrom
  | Stdout
  | Stderr
  | Both
deriving DecidableEq, Repr

/-- `shell::JobKind`: the separator between one job and the next. -/
inductive JobKind
  | Pipe (mode : RedirectFrom)
  | And
  | Or
  | Background
  | Last
deriving DecidableEq, Repr

/-- What a standard-descriptor slot of a `std::process::Command` holds:
either nothing was assigned (the child inherits) or a concrete raw fd. -/
inductive FdSlot
  | inherit
  | fd (n : Nat)
deriving DecidableEq, Repr

/-- What a raw file descriptor refers to in the model. -/
inductive FdTarget
  | pipeRead (id : Nat) (cloexec : Bool)
  | pipeWrite (id : Nat) (cloexec : Bool)
  | fileRead (path : String)
  | fileWrite (path : String) (append : Bool) (truncate : Bool)
deriving DecidableEq, Repr

/-- Model of the outcome of spawning a command: the process runs and
eventually exits with the given status, or `spawn` fails with an
`io::Error` that either is `ErrorKind::NotFound` or some other kind. -/
inductive SpawnBehavior
  | ok (status : Int)
  | errNotFound (msg : String)
  | errOther (msg : String)
deriving DecidableEq, Repr

/-- Model of `std::process::Command` as used by `pipe.rs`: a program name,
the three standard-descriptor slots (set by `.stdin(..)`, `.stdout(..)`,
`.stderr(..)`), and the behaviour its process exhibits when spawned. -/
structure Command where
  name : String
  stdinSlot : FdSlot := .inherit
  stdoutSlot : FdSlot := .inherit
  stderrSlot : FdSlot := .inherit
  behavior : SpawnBehavior := .ok 0
deriving DecidableEq, Repr

/-- `shell::Job`: the parsed invocation (its command name and separator
kind), plus the behaviour of the process it builds. -/
structure Job where
  command : String
  behavior : SpawnBehavior := .ok 0
  kind : JobKind
deriving DecidableEq, Repr

/-- `parser::peg::Input`: the pipeline's input source. -/
inductive Input
  | file (path : String)
  | hereString (s : String)
deriving DecidableEq, Repr

/-- `parser::peg::Redirection`: the pipeline's output sink (`file`,
`append`, and the `from` selector, named `rfrom` here). -/
structure Redirection where
  file : String
  append : Bool
  rfrom : RedirectFrom
deriving DecidableEq, Repr

/-- `parser::peg::Pipeline`: jobs plus optional input source and output sink. -/
structure Pipeline where
  jobs : List Job
  stdin : Option Input := none
  stdout : Option Redirection := none
deriving DecidableEq, Repr

/-- The shell world state: allocator counters, descriptor table, pipe
buffers, stderr log, foreground set, recorded exit statuses, signals sent,
and failure-injection oracles for fallible syscalls (each oracle is a list
of outcomes consumed one per call; an exhausted list means success). -/
structure St where
  nextFd : Nat := 0
  nextPid : Nat := 100
  pipeCnt : Nat := 0
  fdTarget : List (Nat × FdTarget) := []
  pipeData : List (Nat × String) := []
  writerClosed : List Nat := []
  errLog : List String := []
  foreground : List Nat := []
  statuses : List (Nat × Int) := []
  pgids : List (Nat × Nat) := []
  spawned : List String := []
  signalsSent : List (Nat × Int) := []
  bgJobs : List String := []
  ttyPgrp : Nat := 0
  shellPid : Nat := 1
  builtins : List String := []
  printComms : Bool := false
  pipe2Outcomes : List (Option String) := []
  dupOutcomes : List (Option String) := []
  writeOutcomes : List (Option String) := []
  fsErr : List (String × String) := []
deriving DecidableEq, Repr

/-- Modelled from the spec: the exit-status constants of `shell::status`
(not under `src/`); §6 fixes `SUCCESS=0`, `FAILURE=1`,
`NO_SUCH_COMMAND=127`, `TERMINATED=143`. -/
def SUCCESS : Int := 0

/-- Modelled from the spec: see `SUCCESS`. -/
def FAILURE : Int := 1

/-- Modelled from the spec: see `SUCCESS`. -/
def NO_SUCH_COMMAND : Int := 127

/-- Modelled from the spec: see `SUCCESS`. -/
def TERMINATED : Int := 143

/-- SIGTERM's signal number. -/
def SIGTERM : Int := 15

/-- Look up the target of a raw fd in the descriptor table. -/
def lookupFd (st : St) (f : Nat) : Option FdTarget :=
  st.fdTarget.lookup f

/-- `sys::pipe2(sys::O_CLOEXEC)`: allocate a fresh pipe, returning
`(reader, writer)` with close-on-exec set on both ends, or fail according
to the injection oracle. -/
def pipe2 (st : St) : Except String (Nat × Nat) × St :=
  match st.pipe2Outcomes with
  | (some msg) :: rest => (.error msg, { st with pipe2Outcomes := rest })
  | outs =>
      let r := st.nextFd
      let w := st.nextFd + 1
      let p := st.pipeCnt
      (.ok (r, w),
       { st with
          nextFd := st.nextFd + 2
          pipeCnt := p + 1
          fdTarget := (r, .pipeRead p true) :: (w, .pipeWrite p true) :: st.fdTarget
          pipeData := (p, "") :: st.pipeData
          pipe2Outcomes := outs.tail })

/-- `File::try_clone` (a `dup` of the underlying descriptor): allocate a
fresh fd referring to the same target, or fail per the injection oracle. -/
def try_clone (f : Nat) (st : St) : Except String Nat × St :=
  match st.dupOutcomes with
  | (some msg) :: rest => (.error msg, { st with dupOutcomes := rest })
  | outs =>
      let n := st.nextFd
      let tgt := (lookupFd st f).getD (.fileRead "")
      (.ok n,
       { st with
          nextFd := n + 1
          fdTarget := (n, tgt) :: st.fdTarget
          dupOutcomes := outs.tail })

/-- Dropping a `File` closes its raw fd; the model records that a pipe's
writer end is closed (which delivers EOF to the reader). -/
def closeFd (f : Nat) (st : St) : St :=
  match lookupFd st f with
  | some (.pipeWrite p _) => { st with writerClosed := st.writerClosed ++ [p] }
  | _ => st

/-- Append `s` to the buffer of pipe `p`. -/
def writeData (p : Nat) (s : String) : List (Nat × String) → List (Nat × String)
  | [] => []
  | e :: rest =>
      if e.fst = p then (e.fst, e.snd ++ s) :: rest else e :: writeData p s rest

/-- `Write::write_all` on the writer end `f`: append the whole buffer to
the pipe's data, or fail per the injection oracle. -/
def write_all (f : Nat) (s : String) (st : St) : Except String Unit × St :=
  match st.writeOutcomes with
  | (some msg) :: rest => (.error msg, { st with writeOutcomes := rest })
  | outs =>
      match lookupFd st f with
      | some (.pipeWrite p _) =>
          (.ok (),
           { st with pipeData := writeData p s st.pipeData, writeOutcomes := outs.tail })
      | _ => (.ok (), { st with writeOutcomes := outs.tail })

/-- `stdin_of` (`pipe.rs` lines 18–28): create a close-on-exec pipe, write
the whole buffer into the writer end, flush, and return the reader end;
the `File` wrapping the writer is dropped on every return path, closing the
writer end. Errors of `pipe2` or of the write propagate via `?`. -/
def stdin_of (input : String) (st : St) : Except String Nat × St :=
  match pipe2 st with
  | (.error e, st1) => (.error e, st1)
  | (.ok (reader, writer), st1) =>
      match write_all writer input st1 with
      | (.error e, st2) => (.error e, closeFd writer st2)
      | (.ok _, st2) => (.ok reader, closeFd writer st2)

/-- `create_pipe` (`pipe.rs` lines 32–57): wire a fresh pipe between
`parent` and `child` according to `mode`.  `Stdout` assigns the writer to
the parent's stdout, `Stderr` to its stderr; `Both` duplicates the writer
via `try_clone` (releasing the temporary `File` with `into_raw_fd` so the
original stays open) and assigns writer to stdout and the clone to stderr.
In every mode the child's stdin becomes the reader. -/
def create_pipe (parent child : Command) (mode : RedirectFrom) (st : St) :
    Except String (Command × Command) × St :=
  match pipe2 st with
  | (.error e, st1) => (.error e, st1)
  | (.ok (reader, writer), st1) =>
      let wired : Except String Command × St :=
        match mode with
        | .Stdout => (.ok { parent with stdoutSlot := .fd writer }, st1)
        | .Stderr => (.ok { parent with stderrSlot := .fd writer }, st1)
        | .Both =>
            match try_clone writer st1 with
            | (.error e, st2) => (.error e, closeFd writer st2)
            | (.ok clone, st2) =>
                (.ok { parent with stdoutSlot := .fd writer, stderrSlot := .fd clone }, st2)
      match wired with
      | (.error e, st2) => (.error e, st2)
      | (.ok parent2, st2) =>
          (.ok (parent2, { child with stdinSlot := .fd reader }), st2)

/-- `get_command_name` (`pipe.rs` line 329): the Rust code recovers the
program name from the `Debug` rendering of the `Command`; in the model a
`Command` carries its name directly. -/
def get_command_name (c : Command) : String := c.name

/-- `get_full_command` (`pipe.rs` line 333): reconstructs `argv` as a
string from the `Debug` rendering; the model carries no argument list, so
this is the program name. -/
def get_full_command (c : Command) : String := c.name

/-- The message carried by a spawn failure (`Display` of the `io::Error`). -/
def spawnErrMsg : SpawnBehavior → String
  | .ok _ => ""
  | .errNotFound m => m
  | .errOther m => m

/-- `Command::before_exec(..).spawn()`: on success allocate a fresh PID,
record the process group joined by the pre-exec hook
(`create_process_group(pgid)`; `pgid = 0` means the child leads its own
group), record the eventual exit status, and record the spawn; on failure
report whether the error kind is `NotFound` together with its message. -/
def spawn (cmd : Command) (pgid : Nat) (st : St) : Except (Bool × String) Nat × St :=
  match cmd.behavior with
  | .ok status =>
      let pid := st.nextPid
      (.ok pid,
       { st with
          nextPid := pid + 1
          statuses := (pid, status) :: st.statuses
          pgids := (pid, if pgid = 0 then pid else pgid) :: st.pgids
          spawned := st.spawned ++ [cmd.name] })
  | .errNotFound m => (.error (true, m), st)
  | .errOther m => (.error (false, m), st)

/-- The `spawn_proc!` macro of `pipe` (`pipe.rs` lines 207–231): spawn the
command; on success set `pgid` from the first child and hand it the
terminal when foreground, then push the PID onto the shell's foreground
set and the run's `children`; on failure print
``ion: failed to spawn `<name>`: <e>`` and abort (the macro expands to a
`return NO_SUCH_COMMAND` from `pipe`). -/
def spawn_proc (cmd : Command) (foreground : Bool) (pgid : Nat)
    (children : List Nat) (st : St) : Except Unit (Nat × List Nat) × St :=
  match spawn cmd pgid st with
  | (.ok pid, st1) =>
      let pgid2 := if pgid = 0 then pid else pgid
      let st2 :=
        if pgid = 0 ∧ foreground then { st1 with ttyPgrp := pid } else st1
      (.ok (pgid2, children ++ [pid]),
       { st2 with foreground := st2.foreground ++ [pid] })
  | (.error (_, m), st1) =>
      (.error (),
       { st1 with errLog := st1.errLog ++
          ["ion: failed to spawn `" ++ cmd.name ++ "`: " ++ m] })

/-- Modelled from the spec: `Shell::watch_foreground` (job-control layer,
not under `src/`).  §4.6: block until every child of the watched group has
terminated, invoking the per-exit callback with each exiting PID as it is
reaped, and return the exit status of `lastPid`.  The exit events arrive
in an arbitrary order given by `exits`. -/
def watch_foreground {α : Type} (_pgid lastPid : Nat) (exits : List (Nat × Int))
    (a : α) (cb : α → Nat → α) : Int × α :=
  exits.foldl
    (fun acc e => (if e.fst = lastPid then e.snd else acc.fst, cb acc.snd e.fst))
    (SUCCESS, a)

/-- `Iterator::position`: index of the first element satisfying `p`. -/
def position (p : Nat → Bool) : List Nat → Option Nat
  | [] => none
  | x :: xs => if p x then some 0 else (position p xs).map (· + 1)

/-- The per-exit callback of `wait` (`pipe.rs` lines 321–326): locate the
exiting PID in the retained lists and remove the PID and its command
(dropping the command closes its pipe descriptors, delivering EOF). -/
def dropExited (s : List Nat × List Command) (pid : Nat) :
    List Nat × List Command :=
  match position (fun x => x = pid) s.fst with
  | some id => (s.fst.eraseIdx id, s.snd.eraseIdx id)
  | none => s

/-- `wait` (`pipe.rs` lines 306–327): watch the group led by the first PID
until all children exit, dropping each retained command as its process
exits, and return the exit status of the last PID in the list.  The Rust
code indexes `children[0]` and `children[len-1]` (panicking on an empty
list, which `pipe` never produces for a well-formed pipe-run); the model
totalises those two reads with a default. -/
def wait (children : List Nat) (commands : List Command)
    (exits : List (Nat × Int)) : Int :=
  let pgid := children.headD 0
  let lastPid := (children.getLast?).getD 0
  (watch_foreground pgid lastPid exits (children, commands) dropExited).fst

/-- The recorded exit status of a PID (0 when unknown). -/
def statusOf (st : St) (pid : Nat) : Int :=
  (st.statuses.lookup pid).getD 0

/-- The exit events of a pipe-run in the model's canonical order (spawn
order).  `wait`'s result is independent of the order (see the waiter
theorem), so fixing one order loses no generality. -/
def canonicalExits (st : St) (children : List Nat) : List (Nat × Int) :=
  children.map (fun p => (p, statusOf st p))

/-- Modelled from the spec: `Shell::foreground_send` (job-control layer,
not under `src/`).  §5: "a pipeline-wide terminate is implemented by
sending SIGTERM to every PID in the foreground set". -/
def foreground_send (sig : Int) (st : St) : St :=
  { st with signalsSent := st.signalsSent ++ st.foreground.map (fun p => (p, sig)) }

/-- `terminate_fg` (`pipe.rs` lines 275–277). -/
def terminate_fg (st : St) : St :=
  foreground_send SIGTERM st

/-- `execute_command` (`pipe.rs` lines 279–302): spawn a single command in
its own process group, hand it the terminal when foreground, and watch it;
on spawn failure print `ion: Command not found: <name>` when the error
kind is `NotFound` and `ion: Error spawning process: <e>` otherwise, and
return `FAILURE`. -/
def execute_command (cmd : Command) (foreground : Bool) (st : St) : Int × St :=
  match spawn cmd 0 st with
  | (.ok pid, st1) =>
      let st2 := if foreground then { st1 with ttyPgrp := pid } else st1
      ((watch_foreground pid pid [(pid, statusOf st2 pid)] () (fun a _ => a)).fst, st2)
  | (.error (notFound, m), st1) =>
      if notFound then
        (FAILURE, { st1 with errLog := st1.errLog ++ ["ion: Command not found: " ++ cmd.name] })
      else
        (FAILURE, { st1 with errLog := st1.errLog ++ ["ion: Error spawning process: " ++ m] })

/-- The control point of the `pipe` loop (`pipe.rs` lines 180–271).  The
Rust code drives a single iterator from an outer `loop` and, inside the
`JobKind::Pipe` arm, from an inner `while let`; the model makes the same
traversal structurally recursive over the command list with an explicit
phase: `outer prevKind prevStatus` is the head of the outer loop, and
`run parent mode pgid children remember` is the head of the inner
while-loop of a pipe-run (lines 234–254). -/
inductive Phase
  | outer (prevKind : JobKind) (prevStatus : Int)
  | run (parent : Command) (mode : RedirectFrom) (pgid : Nat)
      (children : List Nat) (remember : List Command)
deriving Repr

/-- The skip decision of the outer loop (`pipe.rs` lines 183–193):
`previous_kind = And` skips the next job when the previous status is
non-zero, `Or` skips it when the previous status is zero. -/
def skipNext (prevKind : JobKind) (prevStatus : Int) : Bool :=
  match prevKind with
  | .And => prevStatus != SUCCESS
  | .Or => prevStatus == SUCCESS
  | _ => false

/-- When a job is skipped, `previous_kind` is advanced to the skipped
job's own kind exactly when that kind is the opposite combinator
(`pipe.rs` lines 185 and 189: `if let JobKind::Or = kind` under `And`,
`if let JobKind::And = kind` under `Or`). -/
def advanceKind (prevKind kind : JobKind) : JobKind :=
  match prevKind, kind with
  | .And, .Or => kind
  | .Or, .And => kind
  | _, _ => prevKind

/-- One traversal of the command list realising the `pipe` loop
(`pipe.rs` lines 180–271); see `Phase` for the correspondence.
Outer phase: apply the short-circuit rule for `previous_kind` via
`skipNext`/`advanceKind`; a `Pipe` job enters the run phase, any other
job runs through `execute_command`.  Run phase: wire a pipe to the next
command, spawn the parent (aborting the whole call with
`NO_SUCH_COMMAND` if a spawn fails), and either continue the run on a
`Pipe` separator or spawn the final child, `wait` on the children, send
SIGTERM to the foreground set and return immediately when the run was
terminated by signal, and otherwise resume the outer phase with the run's
last separator kind (lines 256–261). -/
def pipeGo (cmds : List (Command × JobKind)) (ph : Phase) (foreground : Bool)
    (st : St) : Int × St :=
  match cmds, ph with
  | [], .outer _ prevStatus => (prevStatus, st)
  | [], .run _ _mode _ children remember =>
      -- the iterator is exhausted mid-run: the `while let` ends with `kind`
      -- still `Pipe(mode)` and the loop falls through to the wait;
      -- resuming the outer loop on the exhausted iterator immediately
      -- breaks and returns the status, so that step is inlined
      let status := wait children remember (canonicalExits st children)
      cond (status == TERMINATED) (status, terminate_fg st) (status, st)
  | (parent, kind) :: rest, .outer prevKind prevStatus =>
      cond (skipNext prevKind prevStatus)
        (pipeGo rest (.outer (advanceKind prevKind kind) prevStatus) foreground st)
        (match kind with
         | .Pipe mode => pipeGo rest (.run parent mode 0 [] []) foreground st
         | _ =>
             let r := execute_command parent foreground st
             pipeGo rest (.outer kind r.fst) foreground r.snd)
  | (child, ckind) :: rest, .run parent mode pgid children remember =>
      -- `pipe.rs` lines 234–254: wire, spawn the parent, then dispatch on
      -- the child's separator kind
      let cp := create_pipe parent child mode st
      let wired : Command × Command × St :=
        match cp.fst with
        | .ok pc => (pc.fst, pc.snd, cp.snd)
        | .error e =>
            (parent, child,
             { cp.snd with errLog := cp.snd.errLog ++
                ["ion: failed to create pipe for redirection: " ++ e] })
      match wired with
      | (parent2, child2, st1) =>
        match spawn_proc parent2 foreground pgid children st1 with
        | (.error _, st2) => (NO_SUCH_COMMAND, st2)
        | (.ok (pgid2, children2), st2) =>
            let remember2 := remember ++ [parent2]
            match ckind with
            | .Pipe m =>
                pipeGo rest (.run child2 m pgid2 children2 remember2) foreground st2
            | _ =>
                match spawn_proc child2 foreground pgid2 children2 st2 with
                | (.error _, st3) => (NO_SUCH_COMMAND, st3)
                | (.ok (_, children3), st3) =>
                    let remember3 := remember2 ++ [child2]
                    let status := wait children3 remember3 (canonicalExits st3 children3)
                    cond (status == TERMINATED) (status, terminate_fg st3)
                      (pipeGo rest (.outer ckind status) foreground st3)

/-- `pipe` (`pipe.rs` lines 172–273): run the command sequence with
`previous_status = SUCCESS` and `previous_kind = And` (so the first job
always executes), returning the final status. -/
def pipe (cmds : List (Command × JobKind)) (foreground : Bool) (st : St) :
    Int × St :=
  pipeGo cmds (.outer .And SUCCESS) foreground st

/-- The separator text a job contributes after its name when a pipeline is
pretty-printed. -/
def sepString : JobKind → String
  | .Pipe _ => " | "
  | .And => " && "
  | .Or => " || "
  | .Background => " &"
  | .Last => ""

/-- Modelled from the spec: `Pipeline::to_string` (`parser::peg`, not
under `src/`).  §4.4 and the unit tests of `pipe.rs` pin the pretty form:
jobs joined by their separators, a background pipeline carrying a trailing
`&` (the test requires `to_string` of the single background job `true` to
be `"true &"`). -/
def pipelineToString (p : Pipeline) : String :=
  p.jobs.foldl (fun acc j => acc ++ j.command ++ sepString j.kind) ""

/-- `check_if_background_job` (`pipe.rs` lines 63–74): when the final job's
kind is `Background`, capture the pretty-printed command (and print it
prefixed `> ` when `set -x` is on); otherwise print it when `set -x` is on
and return `None`.  The Rust code indexes `jobs[len-1]` (panicking on an
empty job list, which the pipeline invariant rules out); the model reads
the last element optionally. -/
def check_if_background_job (p : Pipeline) (printComm : Bool) (st : St) :
    Option String × St :=
  if (p.jobs.getLast?).map Job.kind = some JobKind.Background then
    let command := pipelineToString p
    (some command,
     if printComm then { st with errLog := st.errLog ++ ["> " ++ command] } else st)
  else if printComm then
    (none, { st with errLog := st.errLog ++ ["> " ++ pipelineToString p] })
  else (none, st)

/-- `Job::build_command_builtin` (outside `src/`): prepare the command
for an in-shell builtin; descriptor slots start unset. -/
def build_command_builtin (j : Job) : Command :=
  { name := j.command, behavior := j.behavior }

/-- `Job::build_command_external` (outside `src/`): prepare the command
for an external program; descriptor slots start unset. -/
def build_command_external (j : Job) : Command :=
  { name := j.command, behavior := j.behavior }

/-- `File::open` for reading: fail with the message recorded for the path
in the filesystem oracle, otherwise allocate a descriptor on the file. -/
def fileOpen (path : String) (st : St) : Except String Nat × St :=
  match st.fsErr.lookup path with
  | some msg => (.error msg, st)
  | none =>
      let f := st.nextFd
      (.ok f, { st with nextFd := f + 1, fdTarget := (f, .fileRead path) :: st.fdTarget })

/-- Opening the output sink: `OpenOptions::new().create(true).write(true)
.append(true)` when appending, `File::create` (create + write + truncate)
otherwise.  The chosen flags are recorded on the descriptor. -/
def fileOpenWrite (path : String) (append truncate : Bool) (st : St) :
    Except String Nat × St :=
  match st.fsErr.lookup path with
  | some msg => (.error msg, st)
  | none =>
      let f := st.nextFd
      (.ok f,
       { st with
          nextFd := f + 1
          fdTarget := (f, .fileWrite path append truncate) :: st.fdTarget })

/-- The `match pipeline.stdin` block of `execute_pipeline` (`pipe.rs`
lines 93–121): apply the input source to the first command.  A file that
fails to open, or a here-string that fails to materialise, prints a
diagnostic and leaves the stdin slot unset; a here-string gets a trailing
newline appended first. -/
def apply_stdin (cmds : List (Command × JobKind)) (input : Option Input)
    (st : St) : List (Command × JobKind) × St :=
  match input with
  | none => (cmds, st)
  | some (.file filename) =>
      match cmds with
      | [] => (cmds, st)
      | (c, k) :: rest =>
          match fileOpen filename st with
          | (.ok f, st1) => (({ c with stdinSlot := .fd f }, k) :: rest, st1)
          | (.error e, st1) =>
              (cmds,
               { st1 with errLog := st1.errLog ++
                  ["ion: failed to redirect '" ++ filename ++ "' into stdin: " ++ e] })
  | some (.hereString s) =>
      match cmds with
      | [] => (cmds, st)
      | (c, k) :: rest =>
          let s2 := if s.endsWith "\n" then s else s ++ "\n"
          match stdin_of s2 st with
          | (.ok f, st1) => (({ c with stdinSlot := .fd f }, k) :: rest, st1)
          | (.error e, st1) =>
              (cmds,
               { st1 with errLog := st1.errLog ++
                  ["ion: failed to redirect herestring '" ++ s2 ++ "' into stdin: " ++ e] })

/-- The `if let Some(ref stdout)` block of `execute_pipeline` (`pipe.rs`
lines 123–153): open the output sink (append or truncate) and dispatch by
the redirect-from selector onto the LAST command: `Stdout` sets its
stdout, `Stderr` its stderr, and `Both` sets stderr and stdout to the
same raw descriptor (`let fd = f.into_raw_fd()` used twice).  On open
error print a diagnostic and leave the slots unchanged. -/
def apply_stdout (cmds : List (Command × JobKind)) (redir : Option Redirection)
    (st : St) : List (Command × JobKind) × St :=
  match redir with
  | none => (cmds, st)
  | some r =>
      match cmds.getLast? with
      | none => (cmds, st)
      | some (c, k) =>
          let opened :=
            if r.append then fileOpenWrite r.file true false st
            else fileOpenWrite r.file false true st
          match opened with
          | (.ok f, st1) =>
              let c2 :=
                match r.rfrom with
                | .Both => { c with stderrSlot := .fd f, stdoutSlot := .fd f }
                | .Stderr => { c with stderrSlot := .fd f }
                | .Stdout => { c with stdoutSlot := .fd f }
              (cmds.dropLast ++ [(c2, k)], st1)
          | (.error e, st1) =>
              (cmds,
               { st1 with errLog := st1.errLog ++
                  ["ion: failed to redirect stdout into " ++ r.file ++ ": " ++ e] })

/-- Modelled from the spec: `fork_pipe` (`shell::fork`, not under `src/`).
§8: a background pipeline returns immediately after forking with exit
status `SUCCESS`, registering its pretty-printed command in the job table. -/
def fork_pipe (_cmds : List (Command × JobKind)) (commandName : String)
    (st : St) : Int × St :=
  (SUCCESS, { st with bgJobs := st.bgJobs ++ [commandName] })

/-- `Shell::execute_pipeline` (`pipe.rs` lines 81–168): detect a
background pipeline, build a prepared command per job (builtin or
external), apply the input source to the first and the output sink to the
last, clear the foreground set, and either fork the whole pipeline into
the background or run `pipe` in the foreground (with SIGTTOU ignored for
the scope) and take back the terminal afterwards. -/
def execute_pipeline (p : Pipeline) (st : St) : Int × St :=
  let bg := check_if_background_job p st.printComms st
  let piped : List (Command × JobKind) :=
    p.jobs.map (fun j =>
      if st.builtins.contains j.command then (build_command_builtin j, j.kind)
      else (build_command_external j, j.kind))
  let sIn := apply_stdin piped p.stdin bg.snd
  let sOut := apply_stdout sIn.fst p.stdout sIn.snd
  let st3 := { sOut.snd with foreground := [] }
  match bg.fst with
  | some commandName => fork_pipe sOut.fst commandName st3
  | none =>
      -- while active, the SIGTTOU signal is ignored (`SignalHandler::new`)
      let r := pipe sOut.fst true st3
      (r.fst, { r.snd with ttyPgrp := r.snd.shellPid })

/-- A command with the given name and an ordinary exit status, used by the
concrete witnesses. -/
def okCmd (n : String) (s : Int) : Command :=
  { name := n, behavior := .ok s }

/-- A command whose spawn fails with `ErrorKind::NotFound`, used by the
concrete witnesses. -/
def notFoundCmd (n : String) : Command :=
  { name := n, behavior := .errNotFound "No such file or directory (os error 2)" }

/-- The initial world state used by the concrete witnesses. -/
def st0 : St := {}

/-- The previous-status polarity an operator requires of the segment
before it: `And` requires the previous status to be `SUCCESS` (0), `Or`
requires it to be non-zero; every other separator imposes nothing. -/
def polarity (k : JobKind) (s : Int) : Bool :=
  match k with
  | .And => s == SUCCESS
  | .Or => s != SUCCESS
  | _ => true

/-- The command sequence `cmd1 op1 cmd2 op2 cmd3` of the short-circuit
truth table: three simple commands with the given names and exit
statuses, joined by the operators `op1` and `op2`. -/
def threeCmds (n1 n2 n3 : String) (s1 s2 s3 : Int) (op1 op2 : JobKind) :
    List (Command × JobKind) :=
  [({ name := n1, behavior := .ok s1 }, op1),
   ({ name := n2, behavior := .ok s2 }, op2),
   ({ name := n3, behavior := .ok s3 }, .Last)]

/-! ## Theorems -/

theorem beq_add_one_left (n : Nat) : (n + 1 == n) = false := by
  rw [beq_eq_false_iff_ne]; omega

theorem beq_add_one_right (n : Nat) : (n == n + 1) = false := by
  rw [beq_eq_false_iff_ne]; omega

theorem beq_add_two_left (n : Nat) : (n + 2 == n) = false := by
  rw [beq_eq_false_iff_ne]; omega

theorem beq_add_two_right (n : Nat) : (n == n + 2) = false := by
  rw [beq_eq_false_iff_ne]; omega

theorem beq_add_one_add_two (n : Nat) : (n + 1 == n + 2) = false := by
  rw [beq_eq_false_iff_ne]; omega

theorem beq_add_two_add_one (n : Nat) : (n + 2 == n + 1) = false := by
  rw [beq_eq_false_iff_ne]; omega

theorem empty_append_str (s : String) : "" ++ s = s := by
  cases s; rfl

theorem ne_add_one (n : Nat) : n ≠ n + 1 := by omega

theorem add_one_ne (n : Nat) : n + 1 ≠ n := by omega

/-- C10: `pipe` called on an empty command vector does not panic (despite
its doc comment): the iterator yields nothing, the loop breaks at once,
nothing is spawned, no state changes, and the initial
`previous_status = SUCCESS` (0) is returned. -/
theorem pipe_empty_returns_success (foreground : Bool) (st : St) :
    pipe [] foreground st = (SUCCESS, st) := rfl

/-- C5: the wiring policy of `create_pipe`.  When pipe creation (and, for
`Both`, the `dup`) succeeds, exactly one new pipe is created; the reader
end (fd `st.nextFd`) becomes the child's stdin in every mode; `Stdout`
assigns the writer (fd `st.nextFd + 1`) to the parent's stdout, `Stderr`
to its stderr, and `Both` assigns the writer to stdout and a distinct
duplicate (fd `st.nextFd + 2`) of the writer — referring to the same
pipe — to stderr. -/
theorem create_pipe_policy (parent child : Command) (mode : RedirectFrom)
    (st : St) (h1 : st.pipe2Outcomes = []) (h2 : st.dupOutcomes = []) :
    (mode = .Stdout →
      (create_pipe parent child mode st).fst =
        .ok ({ parent with stdoutSlot := .fd (st.nextFd + 1) },
             { child with stdinSlot := .fd st.nextFd }))
    ∧ (mode = .Stderr →
      (create_pipe parent child mode st).fst =
        .ok ({ parent with stderrSlot := .fd (st.nextFd + 1) },
             { child with stdinSlot := .fd st.nextFd }))
    ∧ (mode = .Both →
      (create_pipe parent child mode st).fst =
        .ok ({ parent with stdoutSlot := .fd (st.nextFd + 1),
                           stderrSlot := .fd (st.nextFd + 2) },
             { child with stdinSlot := .fd st.nextFd })
      ∧ st.nextFd + 2 ≠ st.nextFd + 1
      ∧ lookupFd (create_pipe parent child mode st).snd (st.nextFd + 2) =
          some (.pipeWrite st.pipeCnt true))
    ∧ (create_pipe parent child mode st).snd.pipeCnt = st.pipeCnt + 1
    ∧ lookupFd (create_pipe parent child mode st).snd st.nextFd =
        some (.pipeRead st.pipeCnt true)
    ∧ lookupFd (create_pipe parent child mode st).snd (st.nextFd + 1) =
        some (.pipeWrite st.pipeCnt true) := by
  cases mode <;>
    simp [create_pipe, pipe2, try_clone, lookupFd, h1, h2, List.lookup,
      beq_add_one_left, beq_add_one_right, beq_add_two_left, beq_add_two_right,
      beq_add_one_add_two, beq_add_two_add_one]

/-- Witness for `create_pipe_policy` at a concrete input (mode `Both`). -/
theorem create_pipe_policy_witness :
    (st0.pipe2Outcomes = [] ∧ st0.dupOutcomes = [])
    ∧ ((RedirectFrom.Both = .Stdout →
        (create_pipe (okCmd "a" 0) (okCmd "b" 0) .Both st0).fst =
          .ok ({ okCmd "a" 0 with stdoutSlot := .fd (st0.nextFd + 1) },
               { okCmd "b" 0 with stdinSlot := .fd st0.nextFd }))
      ∧ (RedirectFrom.Both = .Stderr →
        (create_pipe (okCmd "a" 0) (okCmd "b" 0) .Both st0).fst =
          .ok ({ okCmd "a" 0 with stderrSlot := .fd (st0.nextFd + 1) },
               { okCmd "b" 0 with stdinSlot := .fd st0.nextFd }))
      ∧ (RedirectFrom.Both = .Both →
        (create_pipe (okCmd "a" 0) (okCmd "b" 0) .Both st0).fst =
          .ok ({ okCmd "a" 0 with stdoutSlot := .fd (st0.nextFd + 1),
                                  stderrSlot := .fd (st0.nextFd + 2) },
               { okCmd "b" 0 with stdinSlot := .fd st0.nextFd })
        ∧ st0.nextFd + 2 ≠ st0.nextFd + 1
        ∧ lookupFd (create_pipe (okCmd "a" 0) (okCmd "b" 0) .Both st0).snd
            (st0.nextFd + 2) = some (.pipeWrite st0.pipeCnt true))
      ∧ (create_pipe (okCmd "a" 0) (okCmd "b" 0) .Both st0).snd.pipeCnt =
          st0.pipeCnt + 1
      ∧ lookupFd (create_pipe (okCmd "a" 0) (okCmd "b" 0) .Both st0).snd
          st0.nextFd = some (.pipeRead st0.pipeCnt true)
      ∧ lookupFd (create_pipe (okCmd "a" 0) (okCmd "b" 0) .Both st0).snd
          (st0.nextFd + 1) = some (.pipeWrite st0.pipeCnt true)) :=
  ⟨⟨rfl, rfl⟩, create_pipe_policy (okCmd "a" 0) (okCmd "b" 0) .Both st0 rfl rfl⟩

/-- C9: `stdin_of` creates one close-on-exec pipe, synchronously writes
and flushes the whole buffer into the writer end before returning, closes
the writer end (the `File` owning it goes out of scope), and returns the
reader end, whose pipe then holds exactly the buffer's bytes followed by
EOF (writer closed); it returns an `IoError` when pipe creation or the
write fails. -/
theorem stdin_of_contract (input : String) (st : St)
    (h1 : st.pipe2Outcomes = []) (h2 : st.writeOutcomes = []) :
    (stdin_of input st).fst = .ok st.nextFd
    ∧ lookupFd (stdin_of input st).snd st.nextFd =
        some (.pipeRead st.pipeCnt true)
    ∧ (stdin_of input st).snd.pipeData.lookup st.pipeCnt = some input
    ∧ st.pipeCnt ∈ (stdin_of input st).snd.writerClosed
    ∧ (∀ (m : String) (rest : List (Option String)) (st2 : St),
        st2.pipe2Outcomes = some m :: rest → (stdin_of input st2).fst = .error m)
    ∧ (∀ (m : String) (rest : List (Option String)) (st2 : St),
        st2.pipe2Outcomes = [] → st2.writeOutcomes = some m :: rest →
        (stdin_of input st2).fst = .error m) := by
  refine ⟨?_, ?_, ?_, ?_, ?_, ?_⟩
  · simp [stdin_of, pipe2, write_all, closeFd, lookupFd, h1, h2, List.lookup,
      writeData, beq_add_one_left, beq_add_one_right]
  · simp [stdin_of, pipe2, write_all, closeFd, lookupFd, h1, h2, List.lookup,
      writeData, beq_add_one_left, beq_add_one_right]
  · simp [stdin_of, pipe2, write_all, closeFd, lookupFd, h1, h2, List.lookup,
      writeData, beq_add_one_left, beq_add_one_right, empty_append_str]
  · simp [stdin_of, pipe2, write_all, closeFd, lookupFd, h1, h2, List.lookup,
      writeData, beq_add_one_left, beq_add_one_right]
  · intro m rest st2 hp
    simp [stdin_of, pipe2, hp]
  · intro m rest st2 hp hw
    simp [stdin_of, pipe2, write_all, hp, hw]

/-- Witness for `stdin_of_contract` at a concrete input. -/
theorem stdin_of_contract_witness :
    (st0.pipe2Outcomes = [] ∧ st0.writeOutcomes = [])
    ∧ ((stdin_of "hello" st0).fst = .ok st0.nextFd
      ∧ lookupFd (stdin_of "hello" st0).snd st0.nextFd =
          some (.pipeRead st0.pipeCnt true)
      ∧ (stdin_of "hello" st0).snd.pipeData.lookup st0.pipeCnt = some "hello"
      ∧ st0.pipeCnt ∈ (stdin_of "hello" st0).snd.writerClosed
      ∧ (∀ (m : String) (rest : List (Option String)) (st2 : St),
          st2.pipe2Outcomes = some m :: rest →
          (stdin_of "hello" st2).fst = .error m)
      ∧ (∀ (m : String) (rest : List (Option String)) (st2 : St),
          st2.pipe2Outcomes = [] → st2.writeOutcomes = some m :: rest →
          (stdin_of "hello" st2).fst = .error m)) :=
  ⟨⟨rfl, rfl⟩, stdin_of_contract "hello" st0 rfl rfl⟩

/-- C3 fails on the code: in the single-command path a command-not-found
spawn failure prints `ion: Command not found: foo` but returns
`FAILURE` (1), not `NO_SUCH_COMMAND` (127); and in the pipe-run path a
not-found failure prints ``ion: failed to spawn `foo`: …``, not the
`Command not found` diagnostic. -/
theorem spawn_failure_status_counterexample :
    (execute_command (notFoundCmd "foo") true st0).fst = FAILURE
    ∧ FAILURE ≠ NO_SUCH_COMMAND
    ∧ "ion: Command not found: foo" ∈
        (execute_command (notFoundCmd "foo") true st0).snd.errLog
    ∧ (pipe [(notFoundCmd "foo", .Pipe .Stdout), (okCmd "q" 0, .Last)]
        true st0).snd.errLog =
      ["ion: failed to spawn `foo`: No such file or directory (os error 2)"] := by
  decide

/-- C3 amended: a spawn failure in the pipe-run path prints
``ion: failed to spawn `<name>`: <reason>`` and aborts the pipe-run with
`NO_SUCH_COMMAND` (127) without spawning anything; in the single-command
path a not-found failure prints `ion: Command not found: <name>` and any
other spawn failure prints `ion: Error spawning process: <reason>`, both
returning `FAILURE` (1). -/
theorem spawn_failure_behaviour (nm msg : String) (mode : RedirectFrom)
    (k : JobKind) (child : Command) (rest : List (Command × JobKind))
    (fg : Bool) (st : St) (hp : st.pipe2Outcomes = []) (hd : st.dupOutcomes = []) :
    (pipe (({ name := nm, behavior := .errNotFound msg }, .Pipe mode)
        :: (child, k) :: rest) fg st).fst = NO_SUCH_COMMAND
    ∧ ("ion: failed to spawn `" ++ nm ++ "`: " ++ msg) ∈
        (pipe (({ name := nm, behavior := .errNotFound msg }, .Pipe mode)
          :: (child, k) :: rest) fg st).snd.errLog
    ∧ (pipe (({ name := nm, behavior := .errNotFound msg }, .Pipe mode)
        :: (child, k) :: rest) fg st).snd.spawned = st.spawned
    ∧ (execute_command { name := nm, behavior := .errNotFound msg } fg st).fst = FAILURE
    ∧ ("ion: Command not found: " ++ nm) ∈
        (execute_command { name := nm, behavior := .errNotFound msg } fg st).snd.errLog
    ∧ (∀ m2 : String,
        (execute_command { name := nm, behavior := .errOther m2 } fg st).fst = FAILURE
        ∧ ("ion: Error spawning process: " ++ m2) ∈
            (execute_command { name := nm, behavior := .errOther m2 } fg st).snd.errLog) := by
  refine ⟨?_, ?_, ?_, ?_, ?_, ?_⟩ <;>
    cases mode <;>
      simp [pipe, pipeGo, skipNext, advanceKind, create_pipe, pipe2, try_clone,
        spawn_proc, spawn, execute_command, SUCCESS, NO_SUCH_COMMAND, FAILURE,
        hp, hd]

/-- Witness for `spawn_failure_behaviour` at a concrete input. -/
theorem spawn_failure_behaviour_witness :
    (st0.pipe2Outcomes = [] ∧ st0.dupOutcomes = [])
    ∧ ((pipe (({ name := "foo", behavior := .errNotFound "no such file" }, .Pipe .Stdout)
          :: (okCmd "q" 0, .Last) :: []) true st0).fst = NO_SUCH_COMMAND
      ∧ ("ion: failed to spawn `" ++ "foo" ++ "`: " ++ "no such file") ∈
          (pipe (({ name := "foo", behavior := .errNotFound "no such file" }, .Pipe .Stdout)
            :: (okCmd "q" 0, .Last) :: []) true st0).snd.errLog
      ∧ (pipe (({ name := "foo", behavior := .errNotFound "no such file" }, .Pipe .Stdout)
          :: (okCmd "q" 0, .Last) :: []) true st0).snd.spawned = st0.spawned
      ∧ (execute_command { name := "foo", behavior := .errNotFound "no such file" }
          true st0).fst = FAILURE
      ∧ ("ion: Command not found: " ++ "foo") ∈
          (execute_command { name := "foo", behavior := .errNotFound "no such file" }
            true st0).snd.errLog
      ∧ (∀ m2 : String,
          (execute_command { name := "foo", behavior := .errOther m2 } true st0).fst = FAILURE
          ∧ ("ion: Error spawning process: " ++ m2) ∈
              (execute_command { name := "foo", behavior := .errOther m2 }
                true st0).snd.errLog)) :=
  ⟨⟨rfl, rfl⟩,
   spawn_failure_behaviour "foo" "no such file" .Stdout .Last (okCmd "q" 0) [] true st0 rfl rfl⟩

/-- C6 fails on the code: when `create_pipe` fails, `pipe` prints the
diagnostic but then proceeds to spawn both affected stages anyway (their
slots left unwired) instead of dropping them unspawned. -/
theorem create_pipe_failure_counterexample :
    (create_pipe (okCmd "a" 0) (okCmd "b" 0) .Stdout
      ({ pipe2Outcomes := [some "too many open files"] } : St)).fst =
        .error "too many open files"
    ∧ (pipe [(okCmd "a" 0, .Pipe .Stdout), (okCmd "b" 0, .Last)] true
        ({ pipe2Outcomes := [some "too many open files"] } : St)).snd.errLog =
      ["ion: failed to create pipe for redirection: too many open files"]
    ∧ (pipe [(okCmd "a" 0, .Pipe .Stdout), (okCmd "b" 0, .Last)] true
        ({ pipe2Outcomes := [some "too many open files"] } : St)).snd.spawned =
      ["a", "b"] :=
  ⟨rfl, rfl, rfl⟩

/-- C6 amended: when `create_pipe` fails it returns an `IoError` (before
wiring any slot), and the caller prints
`ion: failed to create pipe for redirection: <err>` but continues the
pipe-run, spawning both affected stages with their descriptor slots left
unwired (inheriting). -/
theorem create_pipe_failure_behaviour (p c : Command) (mode : RedirectFrom)
    (m : String) (outs : List (Option String)) (sp sc : Int) (fg : Bool) (st : St)
    (hp : st.pipe2Outcomes = some m :: outs) (hnp : st.nextPid ≠ 0)
    (hbp : p.behavior = .ok sp) (hbc : c.behavior = .ok sc) :
    (create_pipe p c mode st).fst = .error m
    ∧ ("ion: failed to create pipe for redirection: " ++ m) ∈
        (pipe [(p, .Pipe mode), (c, .Last)] fg st).snd.errLog
    ∧ (pipe [(p, .Pipe mode), (c, .Last)] fg st).snd.spawned =
        st.spawned ++ [p.name, c.name] := by
  have hcp : (create_pipe p c mode st).fst = .error m := by
    simp [create_pipe, pipe2, hp]
  refine ⟨hcp, ?_, ?_⟩ <;>
  · cases fg <;>
      rcases Bool.eq_false_or_eq_true (sc == (143 : Int)) with hb | hb <;>
      simp [pipe, pipeGo, skipNext, advanceKind, create_pipe, pipe2, spawn_proc,
        spawn, wait, watch_foreground, canonicalExits, statusOf, dropExited,
        position, terminate_fg, foreground_send, SUCCESS, TERMINATED, hp, hnp, hbp,
        hbc, hb, List.lookup, ne_add_one, add_one_ne, beq_add_one_left,
        beq_add_one_right]

/-- Witness for `create_pipe_failure_behaviour` at a concrete input. -/
theorem create_pipe_failure_behaviour_witness :
    (({ pipe2Outcomes := [some "too many open files"] } : St).pipe2Outcomes =
        some "too many open files" :: []
      ∧ ({ pipe2Outcomes := [some "too many open files"] } : St).nextPid ≠ 0
      ∧ (okCmd "a" 0).behavior = .ok 0 ∧ (okCmd "b" 0).behavior = .ok 0)
    ∧ ((create_pipe (okCmd "a" 0) (okCmd "b" 0) .Stdout
          ({ pipe2Outcomes := [some "too many open files"] } : St)).fst =
            .error "too many open files"
      ∧ ("ion: failed to create pipe for redirection: " ++ "too many open files") ∈
          (pipe [(okCmd "a" 0, .Pipe .Stdout), (okCmd "b" 0, .Last)] true
            ({ pipe2Outcomes := [some "too many open files"] } : St)).snd.errLog
      ∧ (pipe [(okCmd "a" 0, .Pipe .Stdout), (okCmd "b" 0, .Last)] true
          ({ pipe2Outcomes := [some "too many open files"] } : St)).snd.spawned =
        ({ pipe2Outcomes := [some "too many open files"] } : St).spawned
          ++ [(okCmd "a" 0).name, (okCmd "b" 0).name]) :=
  ⟨⟨rfl, by decide, rfl, rfl⟩,
   create_pipe_failure_behaviour (okCmd "a" 0) (okCmd "b" 0) .Stdout
     "too many open files" [] 0 0 true
     ({ pipe2Outcomes := [some "too many open files"] } : St) rfl (by decide) rfl rfl⟩

/-- C8 fails on the code for the `both` selector: `execute_pipeline`
assigns the SAME raw descriptor to stdout and stderr
(`let fd = f.into_raw_fd()` used for both slots) and allocates no
duplicate, rather than giving each slot its own descriptor. -/
theorem output_both_no_duplicate_counterexample :
    (apply_stdout [(okCmd "a" 0, .Last)]
        (some { file := "log", append := false, rfrom := .Both }) st0).fst =
      [({ okCmd "a" 0 with stdoutSlot := .fd 0, stderrSlot := .fd 0 }, .Last)]
    ∧ (apply_stdout [(okCmd "a" 0, .Last)]
        (some { file := "log", append := false, rfrom := .Both }) st0).snd.nextFd =
      st0.nextFd + 1 := by
  decide

/-- C8 amended: the output sink is opened with create+write+append when
the append flag is set and with create+truncate otherwise, and the
redirect-from selector dispatches onto the last job: `out` assigns the
descriptor to stdout, `err` to stderr, and `both` assigns the SAME
descriptor to both stdout and stderr (no duplicate is allocated). -/
theorem output_sink_dispatch (pre : List (Command × JobKind)) (c : Command)
    (k : JobKind) (r : Redirection) (st : St)
    (hf : st.fsErr.lookup r.file = none) :
    lookupFd (apply_stdout (pre ++ [(c, k)]) (some r) st).snd st.nextFd =
      some (.fileWrite r.file r.append (!r.append))
    ∧ (r.rfrom = .Stdout →
        (apply_stdout (pre ++ [(c, k)]) (some r) st).fst =
          pre ++ [({ c with stdoutSlot := .fd st.nextFd }, k)])
    ∧ (r.rfrom = .Stderr →
        (apply_stdout (pre ++ [(c, k)]) (some r) st).fst =
          pre ++ [({ c with stderrSlot := .fd st.nextFd }, k)])
    ∧ (r.rfrom = .Both →
        (apply_stdout (pre ++ [(c, k)]) (some r) st).fst =
          pre ++ [({ c with stderrSlot := .fd st.nextFd, stdoutSlot := .fd st.nextFd }, k)]
        ∧ (apply_stdout (pre ++ [(c, k)]) (some r) st).snd.nextFd =
            st.nextFd + 1) := by
  obtain ⟨file, append, rfrom⟩ := r
  simp only at hf
  cases rfrom <;> cases append <;>
    simp [apply_stdout, fileOpenWrite, lookupFd, hf, List.lookup,
      List.getLast?_concat, List.dropLast_concat]

/-- Witness for `output_sink_dispatch` at a concrete input. -/
theorem output_sink_dispatch_witness :
    st0.fsErr.lookup "log" = none
    ∧ (lookupFd (apply_stdout ([] ++ [(okCmd "a" 0, .Last)])
          (some { file := "log", append := false, rfrom := .Both }) st0).snd
          st0.nextFd = some (.fileWrite "log" false (!false))
      ∧ (RedirectFrom.Both = .Stdout →
          (apply_stdout ([] ++ [(okCmd "a" 0, .Last)])
            (some { file := "log", append := false, rfrom := .Both }) st0).fst =
            [] ++ [({ okCmd "a" 0 with stdoutSlot := .fd st0.nextFd }, .Last)])
      ∧ (RedirectFrom.Both = .Stderr →
          (apply_stdout ([] ++ [(okCmd "a" 0, .Last)])
            (some { file := "log", append := false, rfrom := .Both }) st0).fst =
            [] ++ [({ okCmd "a" 0 with stderrSlot := .fd st0.nextFd }, .Last)])
      ∧ (RedirectFrom.Both = .Both →
          (apply_stdout ([] ++ [(okCmd "a" 0, .Last)])
            (some { file := "log", append := false, rfrom := .Both }) st0).fst =
            [] ++ [({ okCmd "a" 0 with stderrSlot := .fd st0.nextFd, stdoutSlot := .fd st0.nextFd }, .Last)]
          ∧ (apply_stdout ([] ++ [(okCmd "a" 0, .Last)])
              (some { file := "log", append := false, rfrom := .Both }) st0).snd.nextFd =
              st0.nextFd + 1)) :=
  ⟨rfl,
   output_sink_dispatch [] (okCmd "a" 0) .Last
     { file := "log", append := false, rfrom := .Both } st0 rfl⟩

/-- C1: the short-circuit truth table of the driver on
`cmd1 op1 cmd2 op2 cmd3`.  The first command always executes; `cmd2`
executes iff `op1` matches its required previous-status polarity (`And`
wants 0, `Or` wants non-zero); `cmd3` executes iff `op2` matches the
polarity of `cmd2`'s status, or of `cmd1`'s status when `cmd2` was
skipped (the driver advances `previous_kind` across the skipped segment,
so `false && a || b` executes `b`). -/
theorem short_circuit_truth_table (op1 op2 : JobKind) (s1 s2 s3 : Int)
    (n1 n2 n3 : String) (fg : Bool) (st : St)
    (h1 : op1 = .And ∨ op1 = .Or) (h2 : op2 = .And ∨ op2 = .Or)
    (hsp : st.spawned = []) (d12 : n1 ≠ n2) (d13 : n1 ≠ n3) (d23 : n2 ≠ n3) :
    n1 ∈ (pipe (threeCmds n1 n2 n3 s1 s2 s3 op1 op2) fg st).snd.spawned
    ∧ (n2 ∈ (pipe (threeCmds n1 n2 n3 s1 s2 s3 op1 op2) fg st).snd.spawned
        ↔ polarity op1 s1 = true)
    ∧ (n3 ∈ (pipe (threeCmds n1 n2 n3 s1 s2 s3 op1 op2) fg st).snd.spawned
        ↔ polarity op2 (cond (polarity op1 s1) s2 s1) = true) := by
  rcases h1 with h1 | h1 <;> rcases h2 with h2 | h2 <;> subst h1 <;> subst h2 <;>
    cases fg <;> by_cases e1 : s1 = 0 <;> by_cases e2 : s2 = 0 <;>
      simp [pipe, pipeGo, threeCmds, skipNext, advanceKind, polarity,
        execute_command, spawn, watch_foreground, statusOf, SUCCESS, hsp,
        e1, e2, List.lookup, Bool.cond_eq_ite, d12, d13, d23,
        Ne.symm d12, Ne.symm d13, Ne.symm d23]

/-- Witness for `short_circuit_truth_table`: `false && a || b` skips `a`
and executes `b`. -/
theorem short_circuit_truth_table_witness :
    ((JobKind.And = .And ∨ JobKind.And = .Or)
      ∧ (JobKind.Or = .And ∨ JobKind.Or = .Or)
      ∧ st0.spawned = []
      ∧ "false" ≠ "a" ∧ "false" ≠ "b" ∧ "a" ≠ "b")
    ∧ ("false" ∈ (pipe (threeCmds "false" "a" "b" 1 0 0 .And .Or) true st0).snd.spawned
      ∧ ("a" ∈ (pipe (threeCmds "false" "a" "b" 1 0 0 .And .Or) true st0).snd.spawned
          ↔ polarity .And 1 = true)
      ∧ ("b" ∈ (pipe (threeCmds "false" "a" "b" 1 0 0 .And .Or) true st0).snd.spawned
          ↔ polarity .Or (cond (polarity .And 1) 0 1) = true)) :=
  ⟨⟨Or.inl rfl, Or.inr rfl, rfl, by decide, by decide, by decide⟩,
   short_circuit_truth_table .And .Or 1 0 0 "false" "a" "b" true st0
     (Or.inl rfl) (Or.inr rfl) rfl (by decide) (by decide) (by decide)⟩

/-- C4: when a pipe-run's `wait` returns `TERMINATED`, the driver sends
SIGTERM to every remaining PID in the foreground set (`terminate_fg`) and
returns `TERMINATED` immediately: no further segment of the pipeline is
evaluated (the final state is exactly `terminate_fg` of the state reached
after the run, so nothing from `rest` is spawned). -/
theorem terminated_run_aborts (parent child p2 c2 : Command)
    (mode : RedirectFrom) (ckind : JobKind) (rest : List (Command × JobKind))
    (fg : Bool) (st st1 st2 st3 : St) (pg2 pg3 : Nat) (ch2 ch3 : List Nat)
    (hnp : ∀ m, ckind ≠ .Pipe m)
    (hcp : create_pipe parent child mode st = (.ok (p2, c2), st1))
    (hs1 : spawn_proc p2 fg 0 [] st1 = (.ok (pg2, ch2), st2))
    (hs2 : spawn_proc c2 fg pg2 ch2 st2 = (.ok (pg3, ch3), st3))
    (hw : wait ch3 [p2, c2] (canonicalExits st3 ch3) = TERMINATED) :
    pipe ((parent, .Pipe mode) :: (child, ckind) :: rest) fg st =
      (TERMINATED, terminate_fg st3)
    ∧ (terminate_fg st3).signalsSent =
        st3.signalsSent ++ st3.foreground.map (fun p => (p, SIGTERM))
    ∧ (terminate_fg st3).spawned = st3.spawned := by
  cases ckind with
  | Pipe m => exact absurd rfl (hnp m)
  | _ =>
    all_goals refine ⟨?_, rfl, rfl⟩
    all_goals
      simp [pipe, pipeGo, skipNext, SUCCESS, hcp, hs1, hs2, hw]

/-- Witness for `terminated_run_aborts`: `p | q ; z` where `q` exits with
the terminated-by-signal status: `z` is never spawned and both PIDs of the
run receive SIGTERM. -/
theorem terminated_run_aborts_witness :
    (pipe [(okCmd "p" 0, .Pipe .Stdout), (okCmd "q" 143, .Last),
        (okCmd "z" 0, .Last)] true st0).fst = TERMINATED
    ∧ (pipe [(okCmd "p" 0, .Pipe .Stdout), (okCmd "q" 143, .Last),
        (okCmd "z" 0, .Last)] true st0).snd.spawned = ["p", "q"]
    ∧ (pipe [(okCmd "p" 0, .Pipe .Stdout), (okCmd "q" 143, .Last),
        (okCmd "z" 0, .Last)] true st0).snd.signalsSent =
      [(100, SIGTERM), (101, SIGTERM)] := by
  have h := terminated_run_aborts (okCmd "p" 0) (okCmd "q" 143) _ _ .Stdout .Last
    [(okCmd "z" 0, .Last)] true st0 _ _ _ _ _ _ _
    (fun m hm => JobKind.noConfusion hm) rfl rfl rfl rfl
  refine ⟨?_, ?_, ?_⟩ <;> rw [h.1] <;> rfl

/-- The PID component of `dropExited` removes the first occurrence of the
exited PID. -/
theorem dropExited_fst (cs : List Nat) (cmds : List Command) (p : Nat) :
    (dropExited (cs, cmds) p).fst = cs.erase p := by
  induction cs generalizing cmds with
  | nil => rfl
  | cons a t ih =>
    by_cases h : a = p
    · subst h
      simp [dropExited, position, List.erase_cons_head]
    · have hbe : (a == p) = false := beq_eq_false_iff_ne.mpr h
      cases hpos : position (fun x => x = p) t with
      | none =>
        have ht : t.erase p = t := by
          have := ih cmds
          rw [dropExited, hpos] at this
          exact this.symm
        simp [dropExited, position, h, hpos, List.erase_cons, hbe, ht]
      | some i =>
        have ht : t.eraseIdx i = t.erase p := by
          have := ih cmds
          rw [dropExited, hpos] at this
          exact this
        simp [dropExited, position, h, hpos, List.erase_cons, hbe, ht,
          List.eraseIdx]

/-- The status component of the waiter's fold: once the accumulator holds
`v` — or some remaining exit event of `lastPid` carries `v` — and every
exit event of `lastPid` carries `v`, the fold ends at `v`. -/
theorem watch_fold_status {α : Type} (lastPid : Nat) (v : Int) (cb : α → Nat → α) :
    ∀ (exits : List (Nat × Int)) (acc : Int × α),
      (acc.fst = v ∨ (lastPid, v) ∈ exits) →
      (∀ q ∈ exits, q.fst = lastPid → q.snd = v) →
      (exits.foldl
        (fun acc e => (if e.fst = lastPid then e.snd else acc.fst, cb acc.snd e.fst))
        acc).fst = v := by
  intro exits
  induction exits with
  | nil =>
    intro acc hin _
    rcases hin with hin | hin
    · exact hin
    · simp at hin
  | cons e t ih =>
    intro acc hin huniq
    simp only [List.foldl_cons]
    apply ih
    · by_cases he : e.fst = lastPid
      · left
        simp [he, huniq e (List.mem_cons_self e t) he]
      · rcases hin with hin | hin
        · left; simp [he, hin]
        · rcases List.mem_cons.mp hin with hin | hin
          · exact absurd (congrArg Prod.fst hin.symm) he
          · right; exact hin
    · exact fun q hq => huniq q (List.mem_cons_of_mem e hq)

/-- The callback component of the waiter's fold is the fold of the
callback over the exiting PIDs. -/
theorem watch_fold_snd {α : Type} (lastPid : Nat) (cb : α → Nat → α) :
    ∀ (exits : List (Nat × Int)) (acc : Int × α),
      (exits.foldl
        (fun acc e => (if e.fst = lastPid then e.snd else acc.fst, cb acc.snd e.fst))
        acc).snd = exits.foldl (fun a e => cb a e.fst) acc.snd := by
  intro exits
  induction exits with
  | nil => intro acc; rfl
  | cons e t ih => intro acc; simp [List.foldl_cons, ih]

/-- When every child PID exits exactly as often as it occurs, the
per-exit drops drain the retained PID list completely. -/
theorem drop_drains (exits : List (Nat × Int)) :
    ∀ (cs : List Nat) (cmds : List Command),
      (exits.map Prod.fst).Perm cs →
      (exits.foldl (fun a e => dropExited a e.fst) (cs, cmds)).fst = [] := by
  induction exits with
  | nil =>
    intro cs cmds hperm
    simpa using hperm.nil_eq.symm
  | cons e t ih =>
    intro cs cmds hperm
    have hmem : e.fst ∈ cs := hperm.mem_iff.mp (List.mem_cons_self _ _)
    have hstep : (t.map Prod.fst).Perm (cs.erase e.fst) :=
      (List.perm_cons e.fst).mp
        (hperm.trans (List.perm_cons_erase hmem))
    have := ih (dropExited (cs, cmds) e.fst).fst (dropExited (cs, cmds) e.fst).snd
      (by rw [dropExited_fst]; exact hstep)
    simpa [List.foldl_cons] using this

/-- C2: the `wait` contract.  For every order in which the stages of a
pipe-run exit (any permutation of the children, each exiting once with
its recorded status), `wait` drops each retained command as its PID exits
— draining the retained PID list, i.e. it returns only after every child
has terminated — and returns the exit status of the LAST PID in the
children list. -/
theorem wait_returns_last_status (children : List Nat) (commands : List Command)
    (f : Nat → Int) (exits : List (Nat × Int)) (hne : children ≠ [])
    (hperm : exits.Perm (children.map (fun p => (p, f p)))) :
    wait children commands exits = f ((children.getLast?).getD 0)
    ∧ (watch_foreground (children.headD 0) ((children.getLast?).getD 0) exits
        (children, commands) dropExited).snd.fst = [] := by
  have hlast : (children.getLast?).getD 0 ∈ children := by
    rw [List.getLast?_eq_getLast children hne]
    exact List.getLast_mem hne
  constructor
  · apply watch_fold_status
    · right
      exact hperm.mem_iff.mpr
        (List.mem_map.mpr ⟨_, hlast, rfl⟩)
    · intro q hq hql
      have := hperm.mem_iff.mp hq
      rcases List.mem_map.mp this with ⟨p, _, rfl⟩
      simp only at hql
      rw [hql]
  · rw [watch_foreground, watch_fold_snd]
    apply drop_drains
    have h3 := hperm.map Prod.fst
    simpa [List.map_map, Function.comp_def] using h3

/-- Witness for `wait_returns_last_status`: two stages whose exit events
arrive in reverse order still yield the last stage's status. -/
theorem wait_returns_last_status_witness :
    (([100, 101] : List Nat) ≠ []
      ∧ ([((101 : Nat), (7 : Int)), (100, 0)]).Perm
          (([100, 101] : List Nat).map
            (fun p => (p, if p = 101 then (7 : Int) else 0))))
    ∧ (wait [100, 101] [okCmd "a" 0, okCmd "b" 7] [(101, 7), (100, 0)] =
        (if (([100, 101] : List Nat).getLast?.getD 0) = 101 then (7 : Int) else 0)
      ∧ (watch_foreground (([100, 101] : List Nat).headD 0)
          (([100, 101] : List Nat).getLast?.getD 0) [(101, 7), (100, 0)]
          ([100, 101], [okCmd "a" 0, okCmd "b" 7]) dropExited).snd.fst = []) :=
  ⟨⟨by decide, by decide⟩,
   wait_returns_last_status [100, 101] [okCmd "a" 0, okCmd "b" 7]
     (fun p => if p = 101 then (7 : Int) else 0) [(101, 7), (100, 0)]
     (by decide) (by decide)⟩

/-- C7: a pipeline whose file input source fails to open emits
`ion: failed to redirect '<path>' into stdin: <reason>`, leaves the first
job's stdin slot unset (the prepared commands are passed on unchanged, so
stdin inherits), and does not abort: `execute_pipeline` proceeds to run
the pipe phase on those commands, with the diagnostic as the only state
change of the input-redirection step. -/
theorem stdin_redirect_error_degrades (p : Pipeline) (j : Job) (js : List Job)
    (fname msg : String) (st : St)
    (hjobs : p.jobs = j :: js) (hin : p.stdin = some (.file fname))
    (hfs : st.fsErr.lookup fname = some msg)
    (hbg : (p.jobs.getLast?).map Job.kind ≠ some JobKind.Background)
    (hpc : st.printComms = false) :
    execute_pipeline p st =
      (let build := fun (jb : Job) =>
          if st.builtins.contains jb.command then (build_command_builtin jb, jb.kind)
          else (build_command_external jb, jb.kind);
       let stD := { st with errLog := st.errLog ++
          ["ion: failed to redirect '" ++ fname ++ "' into stdin: " ++ msg] };
       let sOut := apply_stdout (p.jobs.map build) p.stdout stD;
       let r := pipe sOut.fst true { sOut.snd with foreground := [] };
       (r.fst, { r.snd with ttyPgrp := r.snd.shellPid }))
    ∧ (∀ (c : Command) (k : JobKind) (restC : List (Command × JobKind)) (st1 : St),
        st1.fsErr.lookup fname = some msg →
        apply_stdin ((c, k) :: restC) (some (.file fname)) st1 =
          ((c, k) :: restC,
           { st1 with errLog := st1.errLog ++
              ["ion: failed to redirect '" ++ fname ++ "' into stdin: " ++ msg] }))
    ∧ ((p.jobs.map (fun (jb : Job) =>
          if st.builtins.contains jb.command then (build_command_builtin jb, jb.kind)
          else (build_command_external jb, jb.kind))).head?).map
        (fun cp => cp.fst.stdinSlot) = some FdSlot.inherit := by
  have hb2 : ¬ ∃ a : Job, (j :: js).getLast? = some a ∧ a.kind = JobKind.Background := by
    rw [hjobs] at hbg
    rintro ⟨a, ha, hk⟩
    exact hbg (by rw [ha]; simp [hk])
  refine ⟨?_, ?_, ?_⟩
  · simp [execute_pipeline, check_if_background_job, apply_stdin, fileOpen,
      hjobs, hin, hfs, hb2, hpc, List.map_cons]
  · intro c k restC st1 h1
    simp [apply_stdin, fileOpen, h1]
  · by_cases hb : st.builtins.contains j.command <;>
      simp [hjobs, hb, build_command_builtin, build_command_external]

/-- Witness for `stdin_redirect_error_degrades`: `cat < nope` with a
failing open logs the diagnostic and still runs `cat` with inherited
stdin. -/
theorem stdin_redirect_error_degrades_witness :
    (execute_pipeline
        { jobs := [{ command := "cat", kind := .Last }],
          stdin := some (.file "nope") }
        { fsErr := [("nope", "No such file (os error 2)")] }).snd.errLog =
      ["ion: failed to redirect 'nope' into stdin: No such file (os error 2)"]
    ∧ (execute_pipeline
        { jobs := [{ command := "cat", kind := .Last }],
          stdin := some (.file "nope") }
        { fsErr := [("nope", "No such file (os error 2)")] }).snd.spawned = ["cat"]
    ∧ (execute_pipeline
        { jobs := [{ command := "cat", kind := .Last }],
          stdin := some (.file "nope") }
        { fsErr := [("nope", "No such file (os error 2)")] }).fst = 0 := by
  have h := stdin_redirect_error_degrades
    { jobs := [{ command := "cat", kind := .Last }], stdin := some (.file "nope") }
    { command := "cat", kind := .Last } [] "nope" "No such file (os error 2)"
    { fsErr := [("nope", "No such file (os error 2)")] }
    rfl rfl rfl (by decide) rfl
  refine ⟨?_, ?_, ?_⟩ <;> rw [h.1] <;> rfl

end Ion
